import Mathlib

/-!
Verification development for the credit-card-fraud-detection repository.

Part 1 embeds the client-side helper module `src/static/js/main.js`:
the browser is modelled as an explicit state record (document element ids,
registered submit listeners, console error log, alert log, current
location), and the two wrapper functions `navigateTo` and `safeSubmit`
are translated directly from the source.  A JavaScript callback is
modelled by its observable behaviour on one invocation: it either
returns normally (`Except.ok ()`) or throws an exception carrying a
message (`Except.error msg`).  JavaScript try/catch becomes a `match`
on the `Except` value; a function that never propagates an exception is
total (returns `Browser`, not `Except`).

Part 2 (further below) embeds `src/database/schema_postgresql.sql`.
-/

/-- Observable browser state relevant to `main.js`: the set of element
ids present in the document, the submit listeners registered so far
(element id paired with the callback captured by the handler closure),
the console error log, the alert log, and the current location. -/
structure Browser where
  elements : List String
  listeners : List (String × Except String Unit)
  consoleErrors : List String
  alerts : List String
  location : Option String
deriving Repr

/-- The assignment `window.location.href = url`.  Whether the assignment
succeeds or throws depends on the environment, which we pass explicitly:
`none` means the assignment succeeds, `some e` means it throws the
exception `e`. -/
def locationAssign (env : Option String) (url : String) (b : Browser) :
    Except String Browser :=
  match env with
  | none => Except.ok { b with location := some url }
  | some e => Except.error e

/-- `navigateTo(url)` from `main.js`: try `window.location.href = url`;
on an exception, `console.error('Navigation error:', error)` and
`alert('Navigation error. Please refresh the page.')`.  The function is
total: no exception escapes the catch block. -/
def navigateTo (env : Option String) (url : String) (b : Browser) : Browser :=
  match locationAssign env url b with
  | Except.ok b1 => b1
  | Except.error err =>
      { b with
        consoleErrors := b.consoleErrors ++ ["Navigation error: " ++ err],
        alerts := b.alerts ++ ["Navigation error. Please refresh the page."] }

/-- `document.getElementById(formId)`: `some formId` when an element with
that id exists in the document, `null` (`none`) otherwise. -/
def getElementById (b : Browser) (id : String) : Option String :=
  if id ∈ b.elements then some id else none

/-- `safeSubmit(formId, callback)` from `main.js`: look the form up by id;
if found, register a submit listener that closes over `callback`; if not
found, do nothing.  `addEventListener` appends the new handler after any
existing ones; each call registers a fresh closure, so repeated calls
accumulate listeners. -/
def safeSubmit (formId : String) (cb : Except String Unit) (b : Browser) :
    Browser :=
  match getElementById b formId with
  | some f => { b with listeners := b.listeners ++ [(f, cb)] }
  | none => b

/-- Result of dispatching one submit event: the browser state afterwards,
whether `preventDefault` was invoked on the event, and how many times the
guarded callbacks were invoked. -/
structure SubmitOutcome where
  browser : Browser
  defaultPrevented : Bool
  callbackCalls : Nat
deriving Repr

/-- Body of the handler closure registered by `safeSubmit`:
`e.preventDefault()`, then `try { callback() } catch (error)
{ console.error('Form submission error:', error); alert('Error submitting
form. Please try again.') }`.  Total: the catch block swallows the
exception. -/
def submitHandlerBody (cb : Except String Unit) (o : SubmitOutcome) :
    SubmitOutcome :=
  let o1 : SubmitOutcome :=
    { o with defaultPrevented := true, callbackCalls := o.callbackCalls + 1 }
  match cb with
  | Except.ok _ => o1
  | Except.error err =>
      { o1 with
        browser :=
          { o1.browser with
            consoleErrors :=
              o1.browser.consoleErrors ++ ["Form submission error: " ++ err],
            alerts :=
              o1.browser.alerts ++
                ["Error submitting form. Please try again."] } }

/-- Dispatch one submit event on the form `formId`: the browser runs the
registered submit listeners of that element in registration order.
Initially the event's default action is not prevented and no callback has
run. -/
def dispatchSubmit (formId : String) (b : Browser) : SubmitOutcome :=
  let hs := (b.listeners.filter (fun p => p.1 == formId)).map Prod.snd
  hs.foldl (fun o cb => submitHandlerBody cb o) ⟨b, false, 0⟩

/-- A sample document containing one form, used by the witnesses. -/
def sampleBrowser : Browser :=
  { elements := ["payment-form"], listeners := [], consoleErrors := [],
    alerts := [], location := none }

lemma submitHandlerBody_prevented (cb : Except String Unit)
    (o : SubmitOutcome) : (submitHandlerBody cb o).defaultPrevented = true := by
  cases cb <;> rfl

lemma foldl_handlers_prevented (l : List (Except String Unit))
    (o : SubmitOutcome) (h : o.defaultPrevented = true) :
    (l.foldl (fun o cb => submitHandlerBody cb o) o).defaultPrevented = true := by
  induction l generalizing o with
  | nil => exact h
  | cons c t ih => exact ih _ (submitHandlerBody_prevented c _)

lemma getElementById_mem {b : Browser} {id : String} (h : id ∈ b.elements) :
    getElementById b id = some id := by
  simp [getElementById, h]

lemma safeSubmit_mem {b : Browser} {formId : String}
    (cb : Except String Unit) (h : formId ∈ b.elements) :
    safeSubmit formId cb b = { b with listeners := b.listeners ++ [(formId, cb)] } := by
  simp [safeSubmit, getElementById_mem h]

lemma filter_append_self (l : List (String × Except String Unit))
    (formId : String) (cb : Except String Unit) :
    (l ++ [(formId, cb)]).filter (fun p => p.1 == formId) =
      l.filter (fun p => p.1 == formId) ++ [(formId, cb)] := by
  simp [List.filter_append]

/-- C1: for every form registered via `safeSubmit` with an existing form
id, every dispatched submit event has its default browser submission
prevented (`preventDefault` is invoked), regardless of whether the
supplied callback returns normally or throws. -/
theorem safeSubmit_dispatch_prevents_default (b : Browser) (formId : String)
    (cb : Except String Unit) (h : formId ∈ b.elements) :
    (dispatchSubmit formId (safeSubmit formId cb b)).defaultPrevented = true := by
  rw [safeSubmit_mem cb h]
  unfold dispatchSubmit
  simp only [filter_append_self, List.map_append, List.foldl_append,
    List.map_cons, List.map_nil, List.foldl_cons, List.foldl_nil]
  exact submitHandlerBody_prevented _ _

/-- Witness for C1 at a concrete browser, form and throwing callback. -/
theorem safeSubmit_dispatch_prevents_default_witness :
    "payment-form" ∈ sampleBrowser.elements ∧
      (dispatchSubmit "payment-form"
        (safeSubmit "payment-form" (Except.error "boom") sampleBrowser)).defaultPrevented
        = true :=
  ⟨by decide,
    safeSubmit_dispatch_prevents_default sampleBrowser "payment-form"
      (Except.error "boom") (by decide)⟩

/-- C2: when the callback registered through `safeSubmit` throws, the
dispatched submit handler catches the exception, logs exactly one console
error, shows exactly one alert, still prevents the default action, and —
being a total function — propagates no exception to the caller or event
loop.  The hypothesis that no submit listener for the form existed before
the `safeSubmit` call isolates the single handler the claim speaks of. -/
theorem safeSubmit_throwing_callback_one_log_one_alert (b : Browser)
    (formId err : String) (hmem : formId ∈ b.elements)
    (hnone : b.listeners.filter (fun p => p.1 == formId) = []) :
    dispatchSubmit formId (safeSubmit formId (Except.error err) b) =
      { browser :=
          { b with
            listeners := b.listeners ++ [(formId, Except.error err)],
            consoleErrors := b.consoleErrors ++ ["Form submission error: " ++ err],
            alerts := b.alerts ++ ["Error submitting form. Please try again."] },
        defaultPrevented := true,
        callbackCalls := 1 } := by
  rw [safeSubmit_mem (Except.error err) hmem]
  unfold dispatchSubmit
  simp only [filter_append_self, hnone, List.nil_append, List.map_cons,
    List.map_nil, List.foldl_cons, List.foldl_nil]
  rfl

/-- Witness for C2 at a concrete browser and a concrete thrown error. -/
theorem safeSubmit_throwing_callback_one_log_one_alert_witness :
    "payment-form" ∈ sampleBrowser.elements ∧
      sampleBrowser.listeners.filter (fun p => p.1 == "payment-form") = [] ∧
      dispatchSubmit "payment-form"
          (safeSubmit "payment-form" (Except.error "boom") sampleBrowser) =
        { browser :=
            { sampleBrowser with
              listeners := [("payment-form", Except.error "boom")],
              consoleErrors := ["Form submission error: boom"],
              alerts := ["Error submitting form. Please try again."] },
          defaultPrevented := true,
          callbackCalls := 1 } :=
  ⟨by decide, rfl,
    safeSubmit_throwing_callback_one_log_one_alert sampleBrowser
      "payment-form" "boom" (by decide) rfl⟩

/-- C3: `navigateTo(url)` assigns `url` to the current location when the
assignment succeeds, and when the assignment throws it produces exactly
one logged console error and exactly one alert; in both cases it returns
normally (it is a total function on `Browser`), so no exception
propagates out of `navigateTo`. -/
theorem navigateTo_spec (env : Option String) (url : String) (b : Browser) :
    (env = none → navigateTo env url b = { b with location := some url }) ∧
      (∀ e, env = some e →
        navigateTo env url b =
          { b with
            consoleErrors := b.consoleErrors ++ ["Navigation error: " ++ e],
            alerts := b.alerts ++ ["Navigation error. Please refresh the page."] }) := by
  constructor
  · rintro rfl
    rfl
  · rintro e rfl
    rfl

/-- Witness for C3: a succeeding assignment updates the location, and a
throwing assignment logs one error and alerts once. -/
theorem navigateTo_spec_witness :
    navigateTo none "https://example.com" sampleBrowser =
        { sampleBrowser with location := some "https://example.com" } ∧
      navigateTo (some "SecurityError") "https://example.com" sampleBrowser =
        { sampleBrowser with
          consoleErrors := ["Navigation error: SecurityError"],
          alerts := ["Navigation error. Please refresh the page."] } :=
  ⟨(navigateTo_spec none "https://example.com" sampleBrowser).1 rfl,
    (navigateTo_spec (some "SecurityError") "https://example.com"
        sampleBrowser).2 "SecurityError" rfl⟩

/-- C4: when no element with `formId` exists in the document,
`safeSubmit` is a no-op: the whole browser state — listeners, console,
alerts, location, document — is returned unchanged. -/
theorem safeSubmit_missing_form_noop (b : Browser) (formId : String)
    (cb : Except String Unit) (h : formId ∉ b.elements) :
    safeSubmit formId cb b = b := by
  simp [safeSubmit, getElementById, h]

/-- Witness for C4 at a concrete browser and an id absent from it. -/
theorem safeSubmit_missing_form_noop_witness :
    "no-such-form" ∉ sampleBrowser.elements ∧
      safeSubmit "no-such-form" (Except.ok ()) sampleBrowser = sampleBrowser :=
  ⟨by decide,
    safeSubmit_missing_form_noop sampleBrowser "no-such-form" (Except.ok ())
      (by decide)⟩

/-- C9: `safeSubmit` is not idempotent.  Calling it twice with the same
existing form id and the same callback registers two distinct submit
listeners, and a single subsequent submit event invokes the callback
twice. -/
theorem safeSubmit_not_idempotent (b : Browser) (formId : String)
    (cb : Except String Unit) (hmem : formId ∈ b.elements)
    (hnone : b.listeners.filter (fun p => p.1 == formId) = []) :
    ((safeSubmit formId cb (safeSubmit formId cb b)).listeners.filter
        (fun p => p.1 == formId)).length = 2 ∧
      (dispatchSubmit formId
          (safeSubmit formId cb (safeSubmit formId cb b))).callbackCalls = 2 := by
  have hmem2 : formId ∈ (safeSubmit formId cb b).elements := by
    rw [safeSubmit_mem cb hmem]; exact hmem
  rw [safeSubmit_mem cb hmem2, safeSubmit_mem cb hmem]
  constructor
  · simp [filter_append_self, hnone]
  · unfold dispatchSubmit
    simp only [List.append_assoc, List.singleton_append, filter_append_self]
    rw [show ((formId, cb) :: [(formId, cb)]) =
          [(formId, cb)] ++ [(formId, cb)] from rfl]
    simp only [← List.append_assoc, filter_append_self, hnone,
      List.nil_append, List.map_cons, List.map_nil, List.foldl_cons,
      List.foldl_nil]
    cases cb <;> rfl

/-- Witness for C9 at a concrete browser, form and callback. -/
theorem safeSubmit_not_idempotent_witness :
    "payment-form" ∈ sampleBrowser.elements ∧
      sampleBrowser.listeners.filter (fun p => p.1 == "payment-form") = [] ∧
      ((safeSubmit "payment-form" (Except.ok ())
          (safeSubmit "payment-form" (Except.ok ()) sampleBrowser)).listeners.filter
            (fun p => p.1 == "payment-form")).length = 2 ∧
      (dispatchSubmit "payment-form"
          (safeSubmit "payment-form" (Except.ok ())
            (safeSubmit "payment-form" (Except.ok ()) sampleBrowser))).callbackCalls = 2 := by
  refine ⟨by decide, rfl, ?_⟩
  exact safeSubmit_not_idempotent sampleBrowser "payment-form" (Except.ok ())
    (by decide) rfl

/-!
Part 2: embedding of `src/database/schema_postgresql.sql`.

Tables become lists of row records, paired with the next value of each
`SERIAL` sequence.  `INSERT` becomes a function returning
`Except DbError DbState`: input values are checked first (`VARCHAR(n)`
length, `DECIMAL(p,2)` cast with rounding to two fractional digits and
overflow detection, `JSONB` parsing), then constraints (`UNIQUE`,
`REFERENCES`).  `NOT NULL` columns are non-optional fields; nullable
columns are `Option`.  `TIMESTAMP` values carry no logic in the schema
and are modelled as opaque naturals; the `created_at`/`updated_at`
defaults are omitted because nothing observable in the claims depends on
them.  A `DECIMAL(p,2)` value is stored as its scale-2 numerator: the
integer `n` stands for the decimal number `n / 100`.
-/

/-- JSON values as stored in a `JSONB` column.  A number is kept exactly
as a decimal mantissa and scale (`num m s` stands for `m / 10 ^ s`), so
`85.50` is `num 8550 2`. -/
inductive Json where
  | null : Json
  | bool : Bool → Json
  | num : Int → Nat → Json
  | str : String → Json
  | arr : List Json → Json
  | obj : List (String × Json) → Json
deriving Repr

/-- Opening brace character. -/
def lbraceC : Char := Char.ofNat 123

/-- Closing brace character. -/
def rbraceC : Char := Char.ofNat 125

/-- Double-quote character. -/
def quoteC : Char := Char.ofNat 34

/-- Skip blanks (the only whitespace in the seed literals is the space). -/
def skipWs : List Char → List Char
  | [] => []
  | c :: cs => if c == ' ' then skipWs cs else c :: cs

/-- Read the characters of a JSON string literal up to the closing quote
(the seed literals contain no escape sequences). -/
def takeStringChars : List Char → Option (List Char × List Char)
  | [] => none
  | c :: cs =>
      if c == quoteC then some ([], cs)
      else
        match takeStringChars cs with
        | some (s, r) => some (c :: s, r)
        | none => none

/-- Read a maximal run of decimal digits, returning the accumulated value,
the number of digits read, and the rest. -/
def takeDigits (acc : Nat) (count : Nat) : List Char → Nat × Nat × List Char
  | [] => (acc, count, [])
  | c :: cs =>
      if c.isDigit then takeDigits (acc * 10 + (c.toNat - 48)) (count + 1) cs
      else (acc, count, c :: cs)

/-- Parse a JSON number (optional minus, integer part, optional fraction)
into mantissa and scale. -/
def parseNumber (cs : List Char) : Option ((Int × Nat) × List Char) :=
  let (neg, cs1) :=
    match cs with
    | c :: rest => if c == '-' then (true, rest) else (false, cs)
    | [] => (false, cs)
  let (ip, ic, cs2) := takeDigits 0 0 cs1
  if ic == 0 then none
  else
    match cs2 with
    | c :: rest =>
        if c == '.' then
          let (fp, fc, cs3) := takeDigits 0 0 rest
          if fc == 0 then none
          else
            let m : Nat := ip * 10 ^ fc + fp
            some ((if neg then -(m : Int) else (m : Int), fc), cs3)
        else some ((if neg then -(ip : Int) else (ip : Int), 0), cs2)
    | [] => some ((if neg then -(ip : Int) else (ip : Int), 0), cs2)

mutual

/-- Parse one JSON value (fuelled recursive descent). -/
def parseVal : Nat → List Char → Option (Json × List Char)
  | 0, _ => none
  | fuel + 1, cs =>
      match skipWs cs with
      | [] => none
      | c :: rest =>
          if c == quoteC then
            match takeStringChars rest with
            | some (s, r) => some (Json.str (String.mk s), r)
            | none => none
          else if c == lbraceC then
            match skipWs rest with
            | c2 :: rest2 =>
                if c2 == rbraceC then some (Json.obj [], rest2)
                else
                  match parseMembers fuel (c2 :: rest2) with
                  | some (ms, r) => some (Json.obj ms, r)
                  | none => none
            | [] => none
          else if c == '[' then
            match skipWs rest with
            | c2 :: rest2 =>
                if c2 == ']' then some (Json.arr [], rest2)
                else
                  match parseItems fuel (c2 :: rest2) with
                  | some (xs, r) => some (Json.arr xs, r)
                  | none => none
            | [] => none
          else if c == 't' then
            match rest with
            | 'r' :: 'u' :: 'e' :: r => some (Json.bool true, r)
            | _ => none
          else if c == 'f' then
            match rest with
            | 'a' :: 'l' :: 's' :: 'e' :: r => some (Json.bool false, r)
            | _ => none
          else if c == 'n' then
            match rest with
            | 'u' :: 'l' :: 'l' :: r => some (Json.null, r)
            | _ => none
          else
            match parseNumber (c :: rest) with
            | some ((m, s), r) => some (Json.num m s, r)
            | none => none

/-- Parse a nonempty comma-separated list of array items, up to and
including the closing bracket. -/
def parseItems : Nat → List Char → Option (List Json × List Char)
  | 0, _ => none
  | fuel + 1, cs =>
      match parseVal fuel cs with
      | some (v, r) =>
          match skipWs r with
          | c :: rest =>
              if c == ',' then
                match parseItems fuel rest with
                | some (vs, r2) => some (v :: vs, r2)
                | none => none
              else if c == ']' then some ([v], rest)
              else none
          | [] => none
      | none => none

/-- Parse a nonempty comma-separated list of object members, up to and
including the closing brace. -/
def parseMembers : Nat → List Char → Option (List (String × Json) × List Char)
  | 0, _ => none
  | fuel + 1, cs =>
      match skipWs cs with
      | c :: rest =>
          if c == quoteC then
            match takeStringChars rest with
            | some (k, r) =>
                match skipWs r with
                | c2 :: rest2 =>
                    if c2 == ':' then
                      match parseVal fuel rest2 with
                      | some (v, r2) =>
                          match skipWs r2 with
                          | c3 :: rest3 =>
                              if c3 == ',' then
                                match parseMembers fuel rest3 with
                                | some (ms, r3) =>
                                    some ((String.mk k, v) :: ms, r3)
                                | none => none
                              else if c3 == rbraceC then
                                some ([(String.mk k, v)], rest3)
                              else none
                          | [] => none
                      | none => none
                    else none
                | [] => none
            | none => none
          else none
      | [] => none

end

/-- Parse a complete JSON document: one value followed only by blanks. -/
def parseJson (s : String) : Option Json :=
  match parseVal (s.length + 1) s.data with
  | some (v, r) => if skipWs r == [] then some v else none
  | none => none

/-- Look a key up in a JSON object (first binding wins, as in `JSONB`
which keeps one binding per key). -/
def jsonLookup (j : Json) (k : String) : Option Json :=
  match j with
  | Json.obj ms =>
      match ms.find? (fun p => p.1 == k) with
      | some p => some p.2
      | none => none
  | _ => none

/-- Errors the database engine raises on the inserts of this schema. -/
inductive DbError where
  | valueTooLong : DbError
  | invalidJson : DbError
  | numericOverflow : DbError
  | uniqueViolation : DbError
  | fkViolation : DbError
deriving Repr, DecidableEq

/-- An exact decimal input value: `m / 10 ^ s`. -/
structure Dec where
  m : Int
  s : Nat
deriving Repr, DecidableEq

/-- Round an exact decimal to scale 2 (half away from zero, as the
engine's `numeric` type does), returning the scale-2 numerator. -/
def roundScale2 (d : Dec) : Int :=
  if d.s ≤ 2 then d.m * (10 : Int) ^ (2 - d.s)
  else
    let p : Nat := 10 ^ (d.s - 2)
    let q : Nat := (d.m.natAbs + p / 2) / p
    if d.m < 0 then -(q : Int) else (q : Int)

/-- Cast an input value to `DECIMAL(prec,2)`: round to two fractional
digits, then fail with a numeric overflow when more than `prec` digits
would be needed.  Returns the stored scale-2 numerator. -/
def castDec (prec : Nat) (d : Dec) : Except DbError Int :=
  if (roundScale2 d).natAbs ≤ 10 ^ prec - 1 then Except.ok (roundScale2 d)
  else Except.error DbError.numericOverflow

/-- A row of `cardholders`.  `behavior_profile JSONB` is nullable. -/
structure CardholderRow where
  cardholder_id : Nat
  name : String
  card_number : String
  account_number : String
  behavior_profile : Option Json
deriving Repr

/-- A row of `transactions`.  `amount DECIMAL(10,2)` is stored as its
scale-2 numerator; `date_time` is an opaque timestamp. -/
structure TransactionRow where
  transaction_id : Nat
  cardholder_id : Nat
  amount : Int
  merchant_id : String
  location : String
  date_time : Nat
deriving Repr

/-- A row of `fraud_detection_logs`: the three `DECIMAL(4,2)` scores are
stored as scale-2 numerators. -/
structure FraudLogRow where
  log_id : Nat
  transaction_id : Nat
  score_rf : Int
  score_lr : Int
  final_score : Int
  decision : String
deriving Repr

/-- A row of `case_management`. -/
structure CaseRow where
  case_id : Nat
  transaction_id : Nat
  risk_level : String
  status : String
  audit_trail : Option String
deriving Repr

/-- The database state: the four tables and the next value of each
`SERIAL` sequence. -/
structure DbState where
  cardholders : List CardholderRow
  transactions : List TransactionRow
  fraud_detection_logs : List FraudLogRow
  case_management : List CaseRow
  nextCardholderId : Nat
  nextTransactionId : Nat
  nextLogId : Nat
  nextCaseId : Nat
deriving Repr

/-- The state right after the four `CREATE TABLE` statements. -/
def emptyDb : DbState :=
  { cardholders := [], transactions := [], fraud_detection_logs := [],
    case_management := [], nextCardholderId := 1, nextTransactionId := 1,
    nextLogId := 1, nextCaseId := 1 }

/-- Evaluate the `behavior_profile` input of a cardholder insert: `NULL`
stays null, a string is parsed as `JSONB` (failure rejects the insert). -/
def parseProfile : Option String → Except DbError (Option Json)
  | none => Except.ok none
  | some s =>
      match parseJson s with
      | some j => Except.ok (some j)
      | none => Except.error DbError.invalidJson

/-- `INSERT INTO cardholders (name, card_number, account_number,
behavior_profile)`: check the `VARCHAR` widths and parse the profile
(input evaluation), then check `card_number UNIQUE`; on success append
the row with the next serial id. -/
def insertCardholder (name card acc : String) (profile : Option String)
    (st : DbState) : Except DbError DbState :=
  if 100 < name.length then Except.error DbError.valueTooLong
  else if 16 < card.length then Except.error DbError.valueTooLong
  else if 20 < acc.length then Except.error DbError.valueTooLong
  else
    match parseProfile profile with
    | Except.error e => Except.error e
    | Except.ok pj =>
        if st.cardholders.any (fun r => r.card_number == card) then
          Except.error DbError.uniqueViolation
        else
          Except.ok
            { st with
              cardholders :=
                st.cardholders ++ [⟨st.nextCardholderId, name, card, acc, pj⟩],
              nextCardholderId := st.nextCardholderId + 1 }

/-- `INSERT INTO transactions (cardholder_id, amount, merchant_id,
location, date_time)`: cast `amount` to `DECIMAL(10,2)` and check the
`VARCHAR` widths, then check the foreign key into `cardholders`. -/
def insertTransaction (chId : Nat) (amount : Dec) (merchant loc : String)
    (dt : Nat) (st : DbState) : Except DbError DbState :=
  match castDec 10 amount with
  | Except.error e => Except.error e
  | Except.ok amt =>
      if 20 < merchant.length then Except.error DbError.valueTooLong
      else if 100 < loc.length then Except.error DbError.valueTooLong
      else if st.cardholders.any (fun r => r.cardholder_id == chId) then
        Except.ok
          { st with
            transactions :=
              st.transactions ++ [⟨st.nextTransactionId, chId, amt, merchant, loc, dt⟩],
            nextTransactionId := st.nextTransactionId + 1 }
      else Except.error DbError.fkViolation

/-- `INSERT INTO fraud_detection_logs (transaction_id, score_rf, score_lr,
final_score, decision)`: cast the three scores to `DECIMAL(4,2)` in
column order, check the `decision` width, then the foreign key into
`transactions`. -/
def insertFraudLog (txId : Nat) (rf lr fin : Dec) (decision : String)
    (st : DbState) : Except DbError DbState :=
  match castDec 4 rf with
  | Except.error e => Except.error e
  | Except.ok nrf =>
      match castDec 4 lr with
      | Except.error e => Except.error e
      | Except.ok nlr =>
          match castDec 4 fin with
          | Except.error e => Except.error e
          | Except.ok nfin =>
              if 20 < decision.length then Except.error DbError.valueTooLong
              else if st.transactions.any (fun r => r.transaction_id == txId) then
                Except.ok
                  { st with
                    fraud_detection_logs :=
                      st.fraud_detection_logs ++
                        [⟨st.nextLogId, txId, nrf, nlr, nfin, decision⟩],
                    nextLogId := st.nextLogId + 1 }
              else Except.error DbError.fkViolation

/-- `INSERT INTO case_management (transaction_id, risk_level, status,
audit_trail)`: an omitted `status` takes the column default `Pending`;
check the `VARCHAR` widths, then the foreign key into `transactions`. -/
def insertCase (txId : Nat) (risk : String) (statusIn : Option String)
    (audit : Option String) (st : DbState) : Except DbError DbState :=
  if 10 < risk.length then Except.error DbError.valueTooLong
  else if 20 < (statusIn.getD "Pending").length then
    Except.error DbError.valueTooLong
  else if st.transactions.any (fun r => r.transaction_id == txId) then
    Except.ok
      { st with
        case_management :=
          st.case_management ++
            [⟨st.nextCaseId, txId, risk, statusIn.getD "Pending", audit⟩],
        nextCaseId := st.nextCaseId + 1 }
  else Except.error DbError.fkViolation

/-- The `behavior_profile` literal of the John Smith seed row, exactly as
written in the schema script. -/
def johnProfileSrc : String :=
  "\x7b\"avg_transaction\": 85.50, \"usual_merchants\": [\"retail\", \"grocery\"]\x7d"

/-- The `behavior_profile` literal of the Sarah Johnson seed row, exactly
as written in the schema script. -/
def sarahProfileSrc : String :=
  "\x7b\"avg_transaction\": 120.75, \"usual_merchants\": [\"online\", \"travel\"]\x7d"

/-- Run the seed `INSERT INTO cardholders ... VALUES (John Smith row),
(Sarah Johnson row)` of the schema script against the freshly created
tables. -/
def runScript : Except DbError DbState :=
  match insertCardholder "John Smith" "4111111111111111" "ACC001"
      (some johnProfileSrc) emptyDb with
  | Except.error e => Except.error e
  | Except.ok s1 =>
      insertCardholder "Sarah Johnson" "4222222222222222" "ACC002"
        (some sarahProfileSrc) s1

/-- The database state produced by executing the whole schema script. -/
def seededDb : DbState :=
  match runScript with
  | Except.ok st => st
  | Except.error _ => emptyDb

lemma runScript_ok : runScript = Except.ok seededDb := by rfl

/-- States reachable from the schema script by successful inserts. -/
inductive Reachable : DbState → Prop where
  | init : ∀ st, runScript = Except.ok st → Reachable st
  | card : ∀ st st' n c a p, Reachable st →
      insertCardholder n c a p st = Except.ok st' → Reachable st'
  | tx : ∀ st st' i d m l t, Reachable st →
      insertTransaction i d m l t st = Except.ok st' → Reachable st'
  | log : ∀ st st' i rf lr fin dn, Reachable st →
      insertFraudLog i rf lr fin dn st = Except.ok st' → Reachable st'
  | kase : ∀ st st' i r s a, Reachable st →
      insertCase i r s a st = Except.ok st' → Reachable st'

/-- Pair an insert with the state it acted on: on success the new state,
on failure the unchanged input state together with the error. -/
def insStep (f : DbState → Except DbError DbState) (st : DbState) :
    DbState × Option DbError :=
  match f st with
  | Except.ok st' => (st', none)
  | Except.error e => (st, some e)

/-- Retrieve a cardholder's `behavior_profile` by name. -/
def getProfileByName (st : DbState) (n : String) : Option Json :=
  match st.cardholders.find? (fun r => r.name == n) with
  | some r => r.behavior_profile
  | none => none

/-- The JSON value denoted by the John Smith `behavior_profile` literal:
`avg_transaction` is the exact decimal `85.50` (mantissa 8550, scale 2)
and `usual_merchants` is the two-element string array. -/
def johnProfileJson : Json :=
  Json.obj [("avg_transaction", Json.num 8550 2),
    ("usual_merchants", Json.arr [Json.str "retail", Json.str "grocery"])]

/-- The JSON value denoted by the Sarah Johnson `behavior_profile`
literal: `avg_transaction` is `120.75` and `usual_merchants` is the
two-element string array. -/
def sarahProfileJson : Json :=
  Json.obj [("avg_transaction", Json.num 12075 2),
    ("usual_merchants", Json.arr [Json.str "online", Json.str "travel"])]

/-- C7: after executing the schema script, each of the two seed
cardholders' stored `behavior_profile` is exactly the JSON written in its
INSERT statement; in particular John Smith's profile has
`avg_transaction = 85.50` (stored exactly, as mantissa 8550 at scale 2)
and `usual_merchants = ["retail", "grocery"]`. -/
theorem seed_profiles_roundtrip :
    getProfileByName seededDb "John Smith" = some johnProfileJson ∧
      getProfileByName seededDb "Sarah Johnson" = some sarahProfileJson ∧
      (getProfileByName seededDb "John Smith").bind
          (fun j => jsonLookup j "avg_transaction") = some (Json.num 8550 2) ∧
      (getProfileByName seededDb "John Smith").bind
          (fun j => jsonLookup j "usual_merchants") =
        some (Json.arr [Json.str "retail", Json.str "grocery"]) ∧
      (getProfileByName seededDb "Sarah Johnson").bind
          (fun j => jsonLookup j "avg_transaction") = some (Json.num 12075 2) ∧
      (getProfileByName seededDb "Sarah Johnson").bind
          (fun j => jsonLookup j "usual_merchants") =
        some (Json.arr [Json.str "online", Json.str "travel"]) :=
  ⟨rfl, rfl, rfl, rfl, rfl, rfl⟩

/-- C5: on any state reachable from the schema, inserting a cardholder
row whose `card_number` equals the `card_number` of an existing
cardholder row (the other input values being acceptable) fails with a
uniqueness violation and leaves the state — in particular the
`cardholders` table — unchanged. -/
theorem duplicate_card_number_rejected (st : DbState)
    (name card acc : String) (profile : Option String) (pj : Option Json)
    (_hre : Reachable st) (hn : name.length ≤ 100) (hc : card.length ≤ 16)
    (ha : acc.length ≤ 20) (hp : parseProfile profile = Except.ok pj)
    (hdup : ∃ r ∈ st.cardholders, r.card_number = card) :
    insStep (insertCardholder name card acc profile) st =
      (st, some DbError.uniqueViolation) := by
  obtain ⟨r, hr, hcard⟩ := hdup
  have hany : st.cardholders.any (fun r => r.card_number == card) = true :=
    List.any_eq_true.mpr ⟨r, hr, by simp [hcard]⟩
  simp [insStep, insertCardholder, Nat.not_lt.mpr hn, Nat.not_lt.mpr hc,
    Nat.not_lt.mpr ha, hp, hany]

/-- Witness for C5: re-inserting John Smith's card number into the seeded
database is rejected with a uniqueness violation and changes nothing. -/
theorem duplicate_card_number_rejected_witness :
    insStep (insertCardholder "Jane Doe" "4111111111111111" "ACC003" none)
        seededDb = (seededDb, some DbError.uniqueViolation) :=
  duplicate_card_number_rejected seededDb "Jane Doe" "4111111111111111"
    "ACC003" none none (Reachable.init seededDb runScript_ok)
    (by decide) (by decide) (by decide) rfl
    ⟨{ cardholder_id := 1, name := "John Smith",
       card_number := "4111111111111111", account_number := "ACC001",
       behavior_profile := some johnProfileJson },
      List.mem_cons_self _ _, rfl⟩

/-- C6: on any state reachable from the schema, inserting a transaction
row whose `cardholder_id` matches no existing cardholder (the other
input values being acceptable) fails with a foreign-key violation and
leaves the state — in particular the `transactions` table — unchanged. -/
theorem missing_cardholder_fk_rejected (st : DbState) (chId : Nat)
    (amount : Dec) (merchant loc : String) (dt : Nat) (amt : Int)
    (_hre : Reachable st) (hcast : castDec 10 amount = Except.ok amt)
    (hm : merchant.length ≤ 20) (hl : loc.length ≤ 100)
    (hfk : ∀ r ∈ st.cardholders, r.cardholder_id ≠ chId) :
    insStep (insertTransaction chId amount merchant loc dt) st =
      (st, some DbError.fkViolation) := by
  have hany : st.cardholders.any (fun r => r.cardholder_id == chId) = false := by
    rw [List.any_eq_false]
    intro r hr
    simp [hfk r hr]
  simp [insStep, insertTransaction, hcast, Nat.not_lt.mpr hm,
    Nat.not_lt.mpr hl, hany]

/-- Witness for C6: inserting a transaction for the absent cardholder id
999 into the seeded database is rejected with a foreign-key violation and
changes nothing. -/
theorem missing_cardholder_fk_rejected_witness :
    insStep (insertTransaction 999 ⟨1000, 2⟩ "MERCH01" "New York" 0)
        seededDb = (seededDb, some DbError.fkViolation) :=
  missing_cardholder_fk_rejected seededDb 999 ⟨1000, 2⟩ "MERCH01" "New York"
    0 1000 (Reachable.init seededDb runScript_ok) rfl (by decide) (by decide)
    (by decide)

/-- C8: every insert into `case_management` that references an existing
transaction and omits the `status` column produces a row whose `status`
is the column default `Pending`. -/
theorem case_status_defaults_pending (st st' : DbState) (txId : Nat)
    (risk : String) (audit : Option String)
    (h : insertCase txId risk none audit st = Except.ok st') :
    ∃ r, st'.case_management = st.case_management ++ [r] ∧
      r.status = "Pending" := by
  simp only [insertCase, Option.getD] at h
  split at h
  · exact Except.noConfusion h
  · split at h
    · exact Except.noConfusion h
    · split at h
      · injection h with h
        subst h
        exact ⟨_, rfl, rfl⟩
      · exact Except.noConfusion h

/-- A transaction inserted into the seeded database, giving
`case_management` inserts a valid foreign-key target. -/
def dbWithTx : DbState :=
  match insertTransaction 1 ⟨1000, 2⟩ "MERCH01" "New York" 0 seededDb with
  | Except.ok st => st
  | Except.error _ => emptyDb

lemma dbWithTx_ok :
    insertTransaction 1 ⟨1000, 2⟩ "MERCH01" "New York" 0 seededDb =
      Except.ok dbWithTx := by rfl

/-- The state after a case insert that omits `status`. -/
def dbWithCase : DbState :=
  match insertCase 1 "High" none (some "auto-opened") dbWithTx with
  | Except.ok st => st
  | Except.error _ => emptyDb

lemma dbWithCase_ok :
    insertCase 1 "High" none (some "auto-opened") dbWithTx =
      Except.ok dbWithCase := by rfl

/-- Witness for C8: the concrete status-omitting case insert above yields
a row whose `status` is `Pending`. -/
theorem case_status_defaults_pending_witness :
    ∃ r, dbWithCase.case_management = dbWithTx.case_management ++ [r] ∧
      r.status = "Pending" :=
  case_status_defaults_pending dbWithTx dbWithCase 1 "High"
    (some "auto-opened") dbWithCase_ok

lemma roundScale2_large {d : Dec} (h : 10 ^ (d.s + 2) ≤ d.m.natAbs) :
    10 ^ 4 ≤ (roundScale2 d).natAbs := by
  unfold roundScale2
  split
  case isTrue hs =>
    rw [Int.natAbs_mul, Int.natAbs_pow]
    have h4 : (10 : Nat) ^ 4 = 10 ^ (d.s + 2) * 10 ^ (2 - d.s) := by
      rw [← pow_add]
      congr 1
      omega
    rw [h4]
    exact Nat.mul_le_mul_right _ h
  case isFalse hs =>
    have hp : 0 < (10 : Nat) ^ (d.s - 2) := Nat.pos_pow_of_pos _ (by norm_num)
    have h1 : 10 ^ 4 * 10 ^ (d.s - 2) ≤ d.m.natAbs := by
      rw [← pow_add]
      calc (10 : Nat) ^ (4 + (d.s - 2)) = 10 ^ (d.s + 2) := by congr 1; omega
        _ ≤ d.m.natAbs := h
    have h2 : 10 ^ 4 ≤ d.m.natAbs / 10 ^ (d.s - 2) :=
      (Nat.le_div_iff_mul_le hp).mpr h1
    have h3 : d.m.natAbs / 10 ^ (d.s - 2) ≤
        (d.m.natAbs + 10 ^ (d.s - 2) / 2) / 10 ^ (d.s - 2) :=
      Nat.div_le_div_right (Nat.le_add_right _ _)
    have hq := le_trans h2 h3
    split
    · rw [Int.natAbs_neg, Int.natAbs_ofNat]
      exact hq
    · rw [Int.natAbs_ofNat]
      exact hq

lemma castDec4_overflow {d : Dec} (h : 10 ^ (d.s + 2) ≤ d.m.natAbs) :
    castDec 4 d = Except.error DbError.numericOverflow := by
  have hb := roundScale2_large h
  unfold castDec
  rw [if_neg]
  simp only [show (10 : Nat) ^ 4 = 10000 from by norm_num] at hb
  omega

lemma castDec4_ok_bound {d : Dec} {n : Int} (h : castDec 4 d = Except.ok n) :
    n.natAbs ≤ 9999 := by
  unfold castDec at h
  split at h
  case isTrue hle =>
    injection h with h
    subst h
    simpa using hle
  case isFalse => exact Except.noConfusion h

lemma castDec_error {p : Nat} {d : Dec} {e : DbError}
    (h : castDec p d = Except.error e) : e = DbError.numericOverflow := by
  unfold castDec at h
  split at h
  · exact Except.noConfusion h
  · injection h with h
    exact h.symm

lemma insertCardholder_logs {n c a : String} {pr : Option String}
    {st st' : DbState}
    (h : insertCardholder n c a pr st = Except.ok st') :
    st'.fraud_detection_logs = st.fraud_detection_logs := by
  unfold insertCardholder at h
  repeat' split at h
  all_goals first
    | exact Except.noConfusion h
    | (injection h with h; subst h; rfl)

lemma insertTransaction_logs {i : Nat} {d : Dec} {m l : String} {t : Nat}
    {st st' : DbState}
    (h : insertTransaction i d m l t st = Except.ok st') :
    st'.fraud_detection_logs = st.fraud_detection_logs := by
  unfold insertTransaction at h
  repeat' split at h
  all_goals first
    | exact Except.noConfusion h
    | (injection h with h; subst h; rfl)

lemma insertCase_logs {i : Nat} {r : String} {s a : Option String}
    {st st' : DbState} (h : insertCase i r s a st = Except.ok st') :
    st'.fraud_detection_logs = st.fraud_detection_logs := by
  unfold insertCase at h
  repeat' split at h
  all_goals first
    | exact Except.noConfusion h
    | (injection h with h; subst h; rfl)

lemma insertFraudLog_ok {i : Nat} {rf lr fin : Dec} {dn : String}
    {st st' : DbState}
    (h : insertFraudLog i rf lr fin dn st = Except.ok st') :
    ∃ nrf nlr nfin,
      castDec 4 rf = Except.ok nrf ∧ castDec 4 lr = Except.ok nlr ∧
      castDec 4 fin = Except.ok nfin ∧
      st'.fraud_detection_logs =
        st.fraud_detection_logs ++ [⟨st.nextLogId, i, nrf, nlr, nfin, dn⟩] := by
  unfold insertFraudLog at h
  split at h
  case h_1 e he => exact Except.noConfusion h
  case h_2 nrf hrf =>
    split at h
    case h_1 e he => exact Except.noConfusion h
    case h_2 nlr hlr =>
      split at h
      case h_1 e he => exact Except.noConfusion h
      case h_2 nfin hfin =>
        split at h
        · exact Except.noConfusion h
        · split at h
          · injection h with h
            subst h
            exact ⟨nrf, nlr, nfin, hrf, hlr, hfin, rfl⟩
          · exact Except.noConfusion h

/-- Every score stored in `fraud_detection_logs` has a scale-2 numerator
of at most 9999 in absolute value. -/
def scoresBounded (st : DbState) : Prop :=
  ∀ r ∈ st.fraud_detection_logs,
    r.score_rf.natAbs ≤ 9999 ∧ r.score_lr.natAbs ≤ 9999 ∧
      r.final_score.natAbs ≤ 9999

lemma reachable_scoresBounded (st : DbState) (h : Reachable st) :
    scoresBounded st := by
  induction h with
  | init st hrun =>
      rw [runScript_ok] at hrun
      injection hrun with hrun
      subst hrun
      intro r hr
      exact absurd hr (by simp [show seededDb.fraud_detection_logs = [] from rfl])
  | card st st' n c a p hre hins ih =>
      intro r hr
      rw [insertCardholder_logs hins] at hr
      exact ih r hr
  | tx st st' i d m l t hre hins ih =>
      intro r hr
      rw [insertTransaction_logs hins] at hr
      exact ih r hr
  | log st st' i rf lr fin dn hre hins ih =>
      obtain ⟨nrf, nlr, nfin, hrf, hlr, hfin, heq⟩ := insertFraudLog_ok hins
      intro r hr
      rw [heq] at hr
      rcases List.mem_append.mp hr with h1 | h2
      · exact ih r h1
      · have : r = ⟨st.nextLogId, i, nrf, nlr, nfin, dn⟩ := by simpa using h2
        subst this
        exact ⟨castDec4_ok_bound hrf, castDec4_ok_bound hlr,
          castDec4_ok_bound hfin⟩
  | kase st st' i r s a hre hins ih =>
      intro r hr
      rw [insertCase_logs hins] at hr
      exact ih r hr

lemma natAbs_le_9999_bounds {n : Int} (h : n.natAbs ≤ 9999) :
    -100 < (n : ℚ) / 100 ∧ (n : ℚ) / 100 < 100 := by
  have h1 : -(10000 : Int) < n := by omega
  have h2 : n < 10000 := by omega
  constructor
  · rw [lt_div_iff₀ (by norm_num : (0 : ℚ) < 100)]
    calc (-100 : ℚ) * 100 = ((-10000 : Int) : ℚ) := by norm_num
      _ < (n : ℚ) := by exact_mod_cast h1
  · rw [div_lt_iff₀ (by norm_num : (0 : ℚ) < 100)]
    calc (n : ℚ) < ((10000 : Int) : ℚ) := by exact_mod_cast h2
      _ = (100 : ℚ) * 100 := by norm_num

/-- C10: the three scores of `fraud_detection_logs` are `DECIMAL(4,2)`.
First conjunct: an insert one of whose score inputs has absolute value
100 or more (as an exact decimal `m / 10 ^ s`, that is
`10 ^ (s + 2) ≤ |m|`) is rejected with a numeric overflow.  Second
conjunct: in every reachable state every stored score — a scale-2
numerator `n` denoting `n / 100`, hence carrying at most two fractional
digits — lies strictly between -100 and 100. -/
theorem fraud_scores_decimal42 :
    (∀ (txId : Nat) (rf lr fin : Dec) (dn : String) (st : DbState),
        (10 ^ (rf.s + 2) ≤ rf.m.natAbs ∨ 10 ^ (lr.s + 2) ≤ lr.m.natAbs ∨
            10 ^ (fin.s + 2) ≤ fin.m.natAbs) →
        insertFraudLog txId rf lr fin dn st =
          Except.error DbError.numericOverflow) ∧
    (∀ st, Reachable st → ∀ r ∈ st.fraud_detection_logs,
        (-100 < (r.score_rf : ℚ) / 100 ∧ (r.score_rf : ℚ) / 100 < 100) ∧
        (-100 < (r.score_lr : ℚ) / 100 ∧ (r.score_lr : ℚ) / 100 < 100) ∧
        (-100 < (r.final_score : ℚ) / 100 ∧ (r.final_score : ℚ) / 100 < 100)) := by
  constructor
  · intro txId rf lr fin dn st hbig
    unfold insertFraudLog
    rcases hbig with hrf | hlr | hfin
    · rw [castDec4_overflow hrf]
    · cases h1 : castDec 4 rf with
      | error e => rw [castDec_error h1]
      | ok nrf => rw [castDec4_overflow hlr]
    · cases h1 : castDec 4 rf with
      | error e => rw [castDec_error h1]
      | ok nrf =>
          cases h2 : castDec 4 lr with
          | error e => rw [castDec_error h2]
          | ok nlr => rw [castDec4_overflow hfin]
  · intro st hst r hr
    obtain ⟨brf, blr, bfin⟩ := reachable_scoresBounded st hst r hr
    exact ⟨natAbs_le_9999_bounds brf, natAbs_le_9999_bounds blr,
      natAbs_le_9999_bounds bfin⟩

/-- Witness for C10: the score 10000 (absolute value 10000 ≥ 100) is
rejected on the seeded database, whose log table trivially satisfies the
stored-score bounds. -/
theorem fraud_scores_decimal42_witness :
    insertFraudLog 1 ⟨10000, 0⟩ ⟨0, 0⟩ ⟨0, 0⟩ "Fraud" seededDb =
        Except.error DbError.numericOverflow ∧
      (∀ r ∈ seededDb.fraud_detection_logs,
        (-100 < (r.score_rf : ℚ) / 100 ∧ (r.score_rf : ℚ) / 100 < 100) ∧
        (-100 < (r.score_lr : ℚ) / 100 ∧ (r.score_lr : ℚ) / 100 < 100) ∧
        (-100 < (r.final_score : ℚ) / 100 ∧ (r.final_score : ℚ) / 100 < 100)) :=
  ⟨fraud_scores_decimal42.1 1 ⟨10000, 0⟩ ⟨0, 0⟩ ⟨0, 0⟩ "Fraud" seededDb
      (Or.inl (by decide)),
    fraud_scores_decimal42.2 seededDb (Reachable.init seededDb runScript_ok)⟩
